import Mathlib

/-!
Shallow embedding of pyAutoExtension (src/autoextension/__init__.py): a
generic extension system built from a registering metaclass, a boolean
algebra of admission policies, and a glob based module discovery helper.
Class namespaces are modelled as association lists of string attributes,
constructed class objects by the data that determines them, and Python
exceptions by an error type threaded through Except.
-/

/-- A class namespace (attribute dictionary) as handed to the metaclass: an
association list from attribute name to string value; lookup returns the
first binding. -/
abbrev AttrMap := List (String × String)

/-- Dictionary lookup, as in the membership test and subscript on a
namespace; none models an absent key. -/
def attrLookup (nsp : AttrMap) (k : String) : Option String :=
  match nsp with
  | [] => none
  | (k2, v) :: rest => if k2 = k then some v else attrLookup rest k

/-- A constructed extension class: the object produced by
supermcls.__new__(mcls, name, bases, namespace), captured by the data that
defines it. -/
structure Variant where
  declName : String
  bases : List String
  nsp : AttrMap
  deriving DecidableEq, Repr

/-- The per family registry mcls._availableExtensions: a dictionary from
extension name to registered class, modelled as an association list. -/
abbrev Registry := List (String × Variant)

/-- Dictionary lookup in a registry. -/
def regLookup (reg : Registry) (k : String) : Option Variant :=
  match reg with
  | [] => none
  | (k2, v) :: rest => if k2 = k then some v else regLookup rest k

/-- Python exceptions arising in this module: KeyError from a failed
dictionary subscript, AttributeError from a failed module attribute lookup,
and the two exception classes defined by the module. extensionNameError
carries the declared class name from its message, and
extensionNameAlreadyExistsError carries the extension name together with
the colliding registered class from its message. -/
inductive PyError where
  | keyError (key : String)
  | attributeError (objName attrName : String)
  | extensionNameError (declName : String)
  | extensionNameAlreadyExistsError (extName : String) (existing : Variant)
  deriving DecidableEq, Repr

/-- An extension policy as the registration protocol invokes it: a callable
on (name, bases, namespace) returning a boolean or raising. -/
abbrev PolicyFun := String → List String → AttrMap → Except PyError Bool

/-- NameBasedWhiteListExtensionPolicy.__call__: true iff the value of the
name entry of the namespace is in the white list; the subscript raises
KeyError when the namespace has no name entry. -/
def NameBasedWhiteListExtensionPolicy (whiteList : List String) : PolicyFun :=
  fun _na _bases nsp =>
    match attrLookup nsp "name" with
    | none => Except.error (PyError.keyError "name")
    | some n => Except.ok (whiteList.contains n)

/-- NameBasedBlackListExtensionPolicy.__call__: true iff the value of the
name entry of the namespace is not in the black list; the subscript raises
KeyError when the namespace has no name entry. -/
def NameBasedBlackListExtensionPolicy (blackList : List String) : PolicyFun :=
  fun _na _bases nsp =>
    match attrLookup nsp "name" with
    | none => Except.error (PyError.keyError "name")
    | some n => Except.ok (!(blackList.contains n))

/-- NameBasedREExtensionPolicy.__call__: re.match is a call into the
standard re library, abstracted here as a boolean matcher parameter; the
namespace subscript raises KeyError when there is no name entry. -/
def NameBasedREExtensionPolicy (reMatch : String → String → Bool)
    (pattern : String) : PolicyFun :=
  fun _na _bases nsp =>
    match attrLookup nsp "name" with
    | none => Except.error (PyError.keyError "name")
    | some n => Except.ok (if reMatch pattern n then true else false)

/-- Attribute lookup on the standard operator module, restricted to the
binary boolean operations the policy algebra refers to. The module defines
and_ and or_ (with a trailing underscore because and and or are keywords)
and xor (without one, because xor is not a keyword); it has no attribute
named xor_, so looking that name up raises AttributeError. -/
def operatorModuleAttr : String → Option (Bool → Bool → Bool)
  | "and_" => some (fun a b => a && b)
  | "or_" => some (fun a b => a || b)
  | "xor" => some (fun a b => Bool.xor a b)
  | _ => none

/-- An operand policy as an arbitrary Python callable: Python callables may
carry observable side effects, modelled by threading an explicit state. -/
abbrev EffPolicy (σ : Type) := String → List String → AttrMap → σ → Bool × σ

/-- ComposedExtensionPolicy: holds the two operand policies and the binary
operator. -/
structure ComposedExtensionPolicy (σ : Type) where
  operand1 : EffPolicy σ
  operand2 : EffPolicy σ
  binaryOperator : Bool → Bool → Bool

/-- ComposedExtensionPolicy.__call__: evaluates operand1 and then operand2,
both unconditionally (Python evaluates both argument expressions before
applying binaryOperator), and combines the two results. -/
def ComposedExtensionPolicy.call {σ : Type} (c : ComposedExtensionPolicy σ)
    (na : String) (bases : List String) (nsp : AttrMap) (s : σ) : Bool × σ :=
  let r1 := c.operand1 na bases nsp s
  let r2 := c.operand2 na bases nsp r1.2
  (c.binaryOperator r1.1 r2.1, r2.2)

/-- AbstractExtensionPolicy.__and__ on two policies: builds
ComposedExtensionPolicy(self, other, operator.and_), after looking up the
and_ attribute on the operator module. -/
def andCompose {σ : Type} (p q : EffPolicy σ) :
    Except PyError (ComposedExtensionPolicy σ) :=
  match operatorModuleAttr "and_" with
  | some op => Except.ok ⟨p, q, op⟩
  | none => Except.error (PyError.attributeError "operator" "and_")

/-- AbstractExtensionPolicy.__or__ on two policies: builds
ComposedExtensionPolicy(self, other, operator.or_), after looking up the
or_ attribute on the operator module. -/
def orCompose {σ : Type} (p q : EffPolicy σ) :
    Except PyError (ComposedExtensionPolicy σ) :=
  match operatorModuleAttr "or_" with
  | some op => Except.ok ⟨p, q, op⟩
  | none => Except.error (PyError.attributeError "operator" "or_")

/-- AbstractExtensionPolicy.__xor__ on two policies: the source evaluates
operator.xor_ to build ComposedExtensionPolicy(self, other, operator.xor_),
so the attribute xor_ is looked up on the operator module before any
composition object is constructed. -/
def xorCompose {σ : Type} (p q : EffPolicy σ) :
    Except PyError (ComposedExtensionPolicy σ) :=
  match operatorModuleAttr "xor_" with
  | some op => Except.ok ⟨p, q, op⟩
  | none => Except.error (PyError.attributeError "operator" "xor_")

/-- BaseExtensionClass._new, the registration protocol: require a name
entry in the namespace (else raise ExtensionNameError), consult the family
policy, and on acceptance either raise ExtensionNameAlreadyExistsError on a
name collision or construct the class and insert it into the registry; a
rejected candidate is constructed but not inserted. The result pairs the
constructed class with the registry contents after the call. -/
def BaseExtensionClass._new (policy : PolicyFun) (reg : Registry)
    (na : String) (bases : List String) (nsp : AttrMap) :
    Except PyError (Variant × Registry) :=
  match attrLookup nsp "name" with
  | none => Except.error (PyError.extensionNameError na)
  | some extName =>
    match policy na bases nsp with
    | Except.error e => Except.error e
    | Except.ok false => Except.ok (Variant.mk na bases nsp, reg)
    | Except.ok true =>
      match regLookup reg extName with
      | some existing =>
        Except.error (PyError.extensionNameAlreadyExistsError extName existing)
      | none =>
        Except.ok (Variant.mk na bases nsp,
          reg ++ [(extName, Variant.mk na bases nsp)])

/-- BaseExtensionClass.getAvailableExtensions: the tuple of values of the
registry dictionary. -/
def getAvailableExtensions (reg : Registry) : List Variant :=
  reg.map Prod.snd

/-- One candidate declaration: declared class name, bases, and namespace. -/
abbrev Declaration := String × List String × AttrMap

/-- A sequence of declarations processed against one family registry: each
declaration runs the registration protocol; a declaration that raises
leaves the registry as it was, the exception having propagated to the
declaration site before any insertion. -/
def runDeclarations (policy : PolicyFun) : Registry → List Declaration → Registry
  | reg, [] => reg
  | reg, d :: ds =>
    match BaseExtensionClass._new policy reg d.1 d.2.1 d.2.2 with
    | Except.ok (_, reg2) => runDeclarations policy reg2 ds
    | Except.error _ => runDeclarations policy reg ds

/-- The registry value _MetaExtensionClass.__init__ binds on every newly
created family: a fresh empty dictionary. -/
def freshFamilyRegistry : Registry := []

/-- The registries of all families, indexed by family identity: each
metaclass instance owns exactly one registry attribute. -/
abbrev Families := Nat → Registry

/-- Creation of a new family: _MetaExtensionClass.__init__ binds a fresh
empty registry to the new metaclass instance and touches nothing else. -/
def createFamily (fams : Families) (fid : Nat) : Families :=
  fun j => if j = fid then freshFamilyRegistry else fams j

/-- A declaration dispatched to the family fid: runs
BaseExtensionClass._new on that family registry (mcls._availableExtensions)
and stores the updated registry back on that family alone. -/
def registerInFamily (fams : Families) (fid : Nat) (policy : PolicyFun)
    (na : String) (bases : List String) (nsp : AttrMap) :
    Except PyError (Variant × Families) :=
  match BaseExtensionClass._new policy (fams fid) na bases nsp with
  | Except.ok (v, reg2) => Except.ok (v, fun j => if j = fid then reg2 else fams j)
  | Except.error e => Except.error e

/-- Membership of a character in the body of an fnmatch bracket class: a
dash between two characters denotes a range, as in the regular expression
class fnmatch.translate produces, and any other character stands for
itself. -/
def charClassMem (c : Char) : List Char → Bool
  | [] => false
  | a :: '-' :: b :: rest =>
    (Nat.ble a.toNat c.toNat && Nat.ble c.toNat b.toNat) || charClassMem c rest
  | a :: rest => (c == a) || charClassMem c rest

/-- Scan of a bracket class body up to the first closing bracket, returning
the body and the remaining pattern; none when no closing bracket exists. -/
def scanToClose : List Char → Option (List Char × List Char)
  | [] => none
  | ']' :: rest => some ([], rest)
  | c :: rest =>
    match scanToClose rest with
    | none => none
    | some (body, rem) => some (c :: body, rem)

/-- Parsing of a bracket class, given the pattern characters after the
opening bracket, following fnmatch.translate: a leading exclamation mark
negates the class, a closing bracket placed first (after any negation) is a
literal member, and absence of a closing bracket makes the opening bracket
a literal (signalled by none). -/
def parseClass (l : List Char) : Option (Bool × List Char × List Char) :=
  let neg : Bool := match l with
    | '!' :: _ => true
    | _ => false
  let l1 : List Char := match l with
    | '!' :: rest => rest
    | _ => l
  match l1 with
  | ']' :: rest =>
    match scanToClose rest with
    | none => none
    | some (body, rem) => some (neg, ']' :: body, rem)
  | _ =>
    match scanToClose l1 with
    | none => none
    | some (body, rem) => some (neg, body, rem)

/-- Fuel indexed worker for fnmatch pattern matching over explicit
character lists: star matches any run of characters, the question mark any
single character, a bracket class one character of (or outside) the class,
and any other character itself; the whole string must be consumed. Every
recursive call strictly decreases pattern length plus string length, so
the fuel supplied by globMatchList below is never exhausted. -/
def globMatchAux : Nat → List Char → List Char → Bool
  | 0, _, _ => false
  | Nat.succ fuel, p, s =>
    match p, s with
    | [], s => s.isEmpty
    | '*' :: ps, s =>
      globMatchAux fuel ps s ||
        (match s with
         | [] => false
         | _ :: s2 => globMatchAux fuel ('*' :: ps) s2)
    | '?' :: ps, s =>
      (match s with
       | [] => false
       | _ :: s2 => globMatchAux fuel ps s2)
    | '[' :: ps, s =>
      (match parseClass ps with
       | none =>
         (match s with
          | '[' :: s2 => globMatchAux fuel ps s2
          | _ => false)
       | some (neg, body, rem) =>
         (match s with
          | [] => false
          | c :: s2 => (charClassMem c body != neg) && globMatchAux fuel rem s2))
    | ch :: ps, s =>
      (match s with
       | c2 :: s2 => (ch == c2) && globMatchAux fuel ps s2
       | _ => false)

/-- fnmatch pattern matching of a pattern against a character list. -/
def globMatchList (p s : List Char) : Bool :=
  globMatchAux (p.length + s.length + 1) p s

/-- fnmatch.fnmatch of a filename against a pattern (the posix normcase is
the identity). -/
def fnmatch (filename pattern : String) : Bool :=
  globMatchList pattern.data filename.data

/-- Whether a string starts with a dot, the hidden file test of the glob
module. -/
def strStartsWithDot (s : String) : Bool :=
  match s.data with
  | [] => false
  | c :: _ => c == '.'

/-- glob.glob1, the per directory step of iglob, on the list of names the
directory holds: names starting with a dot are dropped unless the pattern
itself starts with a dot, and the remaining names are filtered by
fnmatch. -/
def glob1 (entries : List String) (pattern : String) : List String :=
  let names := if strStartsWithDot pattern then entries
    else entries.filter (fun e => !(strStartsWithDot e))
  names.filter (fun na => fnmatch na pattern)

/-- Shell glob matching of one directory entry name against a pattern, as
the glob module implements it: an entry starting with a dot is matched only
by a pattern that itself starts with a dot, and otherwise fnmatch
decides. -/
def shellGlobMatch (pattern entry : String) : Bool :=
  (strStartsWithDot pattern || !(strStartsWithDot entry)) && fnmatch entry pattern

/-- Everything before the last dot of a character list, the whole list when
there is no dot: the head of rsplit on a dot with at most one split. -/
def beforeLastDot : List Char → List Char
  | [] => []
  | c :: rest =>
    if rest.contains '.' then c :: beforeLastDot rest
    else if c == '.' then []
    else c :: beforeLastDot rest

/-- DEFAULT_EXTENSION_PATTERN, the default module file name pattern. -/
def DEFAULT_EXTENSION_PATTERN : String := "[!_]*.py"

/-- findExtensions over the entry list of the directory at the searched
path: iglob on the pattern joined to the path enumerates exactly the
directory entries glob1 keeps, os.path.basename recovers the entry name
from the joined path, and the file extension is stripped from each kept
name. -/
def findExtensions (entries : List String) (pattern : String) : List String :=
  (glob1 entries pattern).map (fun s => String.mk (beforeLastDot s.data))

lemma regLookup_none_iff : ∀ (reg : Registry) (k : String),
    regLookup reg k = none ↔ k ∉ reg.map Prod.fst
  | [], k => by simp [regLookup]
  | (k2, v) :: rest, k => by
    by_cases hk : k2 = k
    · subst hk
      simp [regLookup]
    · simp [regLookup, hk, regLookup_none_iff rest k, Ne.symm hk]

lemma new_ok_cases (policy : PolicyFun) (reg : Registry) (na : String)
    (bases : List String) (nsp : AttrMap) (v : Variant) (reg2 : Registry)
    (h : BaseExtensionClass._new policy reg na bases nsp = Except.ok (v, reg2)) :
    reg2 = reg ∨ ∃ extName, regLookup reg extName = none ∧
      reg2 = reg ++ [(extName, v)] := by
  unfold BaseExtensionClass._new at h
  cases h1 : attrLookup nsp "name" with
  | none => simp [h1] at h
  | some extName =>
    simp only [h1] at h
    cases h2 : policy na bases nsp with
    | error e => simp [h2] at h
    | ok b =>
      cases b with
      | false =>
        simp only [h2, Except.ok.injEq, Prod.mk.injEq] at h
        exact Or.inl h.2.symm
      | true =>
        simp only [h2] at h
        cases h3 : regLookup reg extName with
        | some existing => simp [h3] at h
        | none =>
          simp only [h3, Except.ok.injEq, Prod.mk.injEq] at h
          refine Or.inr ⟨extName, h3, ?_⟩
          rw [← h.2, h.1]

lemma nodup_after_new (policy : PolicyFun) (reg : Registry) (na : String)
    (bases : List String) (nsp : AttrMap) (v : Variant) (reg2 : Registry)
    (h : BaseExtensionClass._new policy reg na bases nsp = Except.ok (v, reg2))
    (hn : (reg.map Prod.fst).Nodup) : (reg2.map Prod.fst).Nodup := by
  rcases new_ok_cases policy reg na bases nsp v reg2 h with h1 | ⟨k, hk, h2⟩
  · rw [h1]; exact hn
  · subst h2
    rw [List.map_append]
    refine List.Nodup.append hn (List.nodup_singleton _) ?_
    intro a ha hb
    simp only [List.map_cons, List.map_nil, List.mem_singleton] at hb
    exact (regLookup_none_iff reg k).mp hk (hb ▸ ha)

lemma runDeclarations_preserves_nodup (policy : PolicyFun) :
    ∀ (ds : List Declaration) (reg : Registry),
      (reg.map Prod.fst).Nodup → ((runDeclarations policy reg ds).map Prod.fst).Nodup
  | [], reg, h => h
  | d :: ds, reg, h => by
    rw [runDeclarations]
    cases h2 : BaseExtensionClass._new policy reg d.1 d.2.1 d.2.2 with
    | error e =>
      exact runDeclarations_preserves_nodup policy ds reg h
    | ok p =>
      obtain ⟨v, reg2⟩ := p
      exact runDeclarations_preserves_nodup policy ds reg2
        (nodup_after_new policy reg d.1 d.2.1 d.2.2 v reg2 h2 h)

lemma new_never_keyError (policy : PolicyFun)
    (hpol : ∀ na bases nsp nm, attrLookup nsp "name" = some nm →
      ∃ b, policy na bases nsp = Except.ok b)
    (reg : Registry) (na : String) (bases : List String) (nsp : AttrMap) :
    BaseExtensionClass._new policy reg na bases nsp ≠
      Except.error (PyError.keyError "name") := by
  intro hcon
  unfold BaseExtensionClass._new at hcon
  cases h1 : attrLookup nsp "name" with
  | none => simp [h1] at hcon
  | some nm =>
    simp only [h1] at hcon
    obtain ⟨b, hb⟩ := hpol na bases nsp nm h1
    cases b with
    | false => simp [hb] at hcon
    | true =>
      simp only [hb] at hcon
      cases h3 : regLookup reg nm with
      | some existing => simp [h3] at hcon
      | none => simp [h3] at hcon

/-- C1: a candidate declaration whose namespace has a name entry, which the
family policy accepts, and whose extension name is not yet a registry key,
is constructed, inserted into the registry under its extension name,
returned, and subsequently appears in getAvailableExtensions. -/
theorem registration_registers_new_name
    (policy : PolicyFun) (reg : Registry) (na : String) (bases : List String)
    (nsp : AttrMap) (extName : String)
    (h1 : attrLookup nsp "name" = some extName)
    (h2 : policy na bases nsp = Except.ok true)
    (h3 : regLookup reg extName = none) :
    BaseExtensionClass._new policy reg na bases nsp =
      Except.ok (Variant.mk na bases nsp,
        reg ++ [(extName, Variant.mk na bases nsp)]) ∧
    Variant.mk na bases nsp ∈
      getAvailableExtensions (reg ++ [(extName, Variant.mk na bases nsp)]) := by
  constructor
  · unfold BaseExtensionClass._new
    simp [h1, h2, h3]
  · unfold getAvailableExtensions
    simp

/-- Witness for C1 at a concrete accepted declaration over an empty
registry. -/
theorem registration_registers_new_name_witness :
    BaseExtensionClass._new (NameBasedBlackListExtensionPolicy []) []
        "MyExtension1" [] [("name", "MyExtension1")] =
      Except.ok (Variant.mk "MyExtension1" [] [("name", "MyExtension1")],
        [("MyExtension1", Variant.mk "MyExtension1" [] [("name", "MyExtension1")])]) ∧
    Variant.mk "MyExtension1" [] [("name", "MyExtension1")] ∈
      getAvailableExtensions
        [("MyExtension1", Variant.mk "MyExtension1" [] [("name", "MyExtension1")])] :=
  registration_registers_new_name (NameBasedBlackListExtensionPolicy []) []
    "MyExtension1" [] [("name", "MyExtension1")] "MyExtension1" rfl rfl rfl

/-- C2: a candidate declaration whose namespace has a name entry, which the
family policy accepts, but whose extension name is already a registry key,
raises ExtensionNameAlreadyExistsError carrying the colliding registered
class, and no constructed class with an updated registry is produced. -/
theorem duplicate_name_rejected
    (policy : PolicyFun) (reg : Registry) (na : String) (bases : List String)
    (nsp : AttrMap) (extName : String) (existing : Variant)
    (h1 : attrLookup nsp "name" = some extName)
    (h2 : policy na bases nsp = Except.ok true)
    (h3 : regLookup reg extName = some existing) :
    BaseExtensionClass._new policy reg na bases nsp =
      Except.error (PyError.extensionNameAlreadyExistsError extName existing) ∧
    ∀ (v : Variant) (reg2 : Registry),
      BaseExtensionClass._new policy reg na bases nsp ≠ Except.ok (v, reg2) := by
  have he : BaseExtensionClass._new policy reg na bases nsp =
      Except.error (PyError.extensionNameAlreadyExistsError extName existing) := by
    unfold BaseExtensionClass._new
    simp [h1, h2, h3]
  exact ⟨he, fun v reg2 hc => by rw [he] at hc; exact Except.noConfusion hc⟩

/-- Witness for C2: redeclaring the name X over a registry that already
holds a variant named X raises the duplicate error carrying that
variant. -/
theorem duplicate_name_rejected_witness :
    BaseExtensionClass._new (NameBasedBlackListExtensionPolicy [])
        [("X", Variant.mk "A" [] [("name", "X")])] "B" [] [("name", "X")] =
      Except.error (PyError.extensionNameAlreadyExistsError "X"
        (Variant.mk "A" [] [("name", "X")])) :=
  (duplicate_name_rejected (NameBasedBlackListExtensionPolicy [])
    [("X", Variant.mk "A" [] [("name", "X")])] "B" [] [("name", "X")] "X"
    (Variant.mk "A" [] [("name", "X")]) rfl rfl rfl).1

/-- C3: a candidate declaration whose namespace has no name entry raises
ExtensionNameError, for every policy whatsoever, including a policy that
itself raises: the policy is never consulted, the registry is untouched and
no class is produced. -/
theorem missing_name_rejected
    (policy : PolicyFun) (reg : Registry) (na : String) (bases : List String)
    (nsp : AttrMap) (h : attrLookup nsp "name" = none) :
    BaseExtensionClass._new policy reg na bases nsp =
      Except.error (PyError.extensionNameError na) := by
  unfold BaseExtensionClass._new
  simp [h]

/-- Witness for C3, with a policy that raises on every input: the missing
name error still wins, showing the policy is not evaluated. -/
theorem missing_name_rejected_witness :
    attrLookup [] "name" = none ∧
    BaseExtensionClass._new (fun _ _ _ => Except.error (PyError.keyError "name"))
      [] "Nameless" [] [] = Except.error (PyError.extensionNameError "Nameless") :=
  ⟨rfl, missing_name_rejected _ [] "Nameless" [] [] rfl⟩

/-- C4: a candidate declaration with a name entry that the family policy
rejects is constructed normally and returned, but the registry is left
unchanged and the construct is absent from getAvailableExtensions; the
third hypothesis renders Python object identity, the freshly constructed
class object differing from every object already registered. -/
theorem policy_rejected_constructed_unregistered
    (policy : PolicyFun) (reg : Registry) (na : String) (bases : List String)
    (nsp : AttrMap)
    (h1 : ∃ extName, attrLookup nsp "name" = some extName)
    (h2 : policy na bases nsp = Except.ok false)
    (h3 : ∀ p ∈ reg, p.2 ≠ Variant.mk na bases nsp) :
    BaseExtensionClass._new policy reg na bases nsp =
      Except.ok (Variant.mk na bases nsp, reg) ∧
    Variant.mk na bases nsp ∉ getAvailableExtensions reg := by
  obtain ⟨extName, h1⟩ := h1
  constructor
  · unfold BaseExtensionClass._new
    simp [h1, h2]
  · intro hmem
    unfold getAvailableExtensions at hmem
    obtain ⟨p, hp, he⟩ := List.mem_map.mp hmem
    exact h3 p hp he

/-- Witness for C4: an abstract base carrying the empty name is rejected by
an empty white list, yet its declaration succeeds and registers nothing. -/
theorem policy_rejected_constructed_unregistered_witness :
    BaseExtensionClass._new (NameBasedWhiteListExtensionPolicy []) [] "Base" []
      [("name", "")] = Except.ok (Variant.mk "Base" [] [("name", "")], []) ∧
    Variant.mk "Base" [] [("name", "")] ∉ getAvailableExtensions [] :=
  policy_rejected_constructed_unregistered (NameBasedWhiteListExtensionPolicy [])
    [] "Base" [] [("name", "")] ⟨"", rfl⟩ rfl (by simp)

/-- C5: composing two policies with the caret operator does not produce an
exclusive or composition at all: __xor__ evaluates operator.xor_, an
attribute the operator module does not define (its exclusive or is named
xor), so every caret composition raises AttributeError, contradicting the
module docstring that advertises caret composition. -/
theorem xor_composition_raises_attribute_error :
    (∀ (σ : Type) (p q : EffPolicy σ),
      xorCompose p q = Except.error (PyError.attributeError "operator" "xor_")) ∧
    operatorModuleAttr "xor_" = none ∧
    operatorModuleAttr "xor" = some (fun a b => Bool.xor a b) :=
  ⟨fun _ _ _ => rfl, rfl, rfl⟩

/-- An operand policy wrapped to count its own invocations in the first
component of the threaded state. -/
def countingOperand1 (f : String → List String → AttrMap → Bool) :
    EffPolicy (Nat × Nat) :=
  fun na bases nsp c => (f na bases nsp, (c.1 + 1, c.2))

/-- An operand policy wrapped to count its own invocations in the second
component of the threaded state. -/
def countingOperand2 (g : String → List String → AttrMap → Bool) :
    EffPolicy (Nat × Nat) :=
  fun na bases nsp c => (g na bases nsp, (c.1, c.2 + 1))

/-- C6: the compositions built by the ampersand and pipe operators invoke
both operand policies exactly once on every call, whatever the first
operand returns: with call counting operands, one call bumps both counters
by exactly one, for all underlying predicates f and g. -/
theorem composed_policies_invoke_both_operands
    (f g : String → List String → AttrMap → Bool)
    (na : String) (bases : List String) (nsp : AttrMap) (c : Nat × Nat) :
    (∃ comp : ComposedExtensionPolicy (Nat × Nat),
      andCompose (countingOperand1 f) (countingOperand2 g) = Except.ok comp ∧
      comp.call na bases nsp c =
        (f na bases nsp && g na bases nsp, (c.1 + 1, c.2 + 1))) ∧
    (∃ comp : ComposedExtensionPolicy (Nat × Nat),
      orCompose (countingOperand1 f) (countingOperand2 g) = Except.ok comp ∧
      comp.call na bases nsp c =
        (f na bases nsp || g na bases nsp, (c.1 + 1, c.2 + 1))) :=
  ⟨⟨_, rfl, rfl⟩, ⟨_, rfl, rfl⟩⟩

/-- C7: keys of a family registry stay pairwise distinct under any sequence
of declarations, and a successful single declaration either leaves the
registry unchanged or appends one binding whose key was not yet present. -/
theorem registry_names_pairwise_distinct (policy : PolicyFun) (reg : Registry)
    (ds : List Declaration) (h : (reg.map Prod.fst).Nodup) :
    ((runDeclarations policy reg ds).map Prod.fst).Nodup ∧
    (∀ (na : String) (bases : List String) (nsp : AttrMap) (v : Variant)
      (reg2 : Registry),
      BaseExtensionClass._new policy reg na bases nsp = Except.ok (v, reg2) →
      reg2 = reg ∨ ∃ extName, extName ∉ reg.map Prod.fst ∧
        reg2 = reg ++ [(extName, v)]) := by
  refine ⟨runDeclarations_preserves_nodup policy ds reg h, ?_⟩
  intro na bases nsp v reg2 hok
  rcases new_ok_cases policy reg na bases nsp v reg2 hok with h1 | ⟨k, hk, h2⟩
  · exact Or.inl h1
  · exact Or.inr ⟨k, (regLookup_none_iff reg k).mp hk, h2⟩

/-- Witness for C7 on a concrete sequence in which the second declaration
collides with the first: the resulting key list is still duplicate free. -/
theorem registry_names_pairwise_distinct_witness :
    ((([] : Registry)).map Prod.fst).Nodup ∧
    ((runDeclarations (NameBasedBlackListExtensionPolicy []) []
      [("A", [], [("name", "X")]), ("B", [], [("name", "X")])]).map
        Prod.fst).Nodup :=
  ⟨by simp, (registry_names_pairwise_distinct
    (NameBasedBlackListExtensionPolicy []) []
    [("A", [], [("name", "X")]), ("B", [], [("name", "X")])] (by simp)).1⟩

/-- C8: a newly created family carries its own fresh empty registry, a
registration in one family never changes the registry of a different
family, and registering the name X in two different freshly created
families succeeds in both, each registry ending up with its own variant
under the key X. -/
theorem families_are_independent
    (fams : Families) (fid gid : Nat) (policy : PolicyFun)
    (na : String) (bases : List String) (nsp : AttrMap)
    (v : Variant) (fams2 : Families)
    (hne : gid ≠ fid)
    (hok : registerInFamily fams fid policy na bases nsp = Except.ok (v, fams2)) :
    createFamily fams fid fid = [] ∧
    fams2 gid = fams gid ∧
    (∃ v1 fams1 v2 fams3,
      registerInFamily (createFamily (createFamily fams 0) 1) 0
          (NameBasedBlackListExtensionPolicy []) "A" [] [("name", "X")] =
        Except.ok (v1, fams1) ∧
      registerInFamily fams1 1 (NameBasedBlackListExtensionPolicy []) "B" []
          [("name", "X")] =
        Except.ok (v2, fams3) ∧
      regLookup (fams3 0) "X" = some v1 ∧ regLookup (fams3 1) "X" = some v2) := by
  refine ⟨by simp [createFamily, freshFamilyRegistry], ?_, ?_⟩
  · unfold registerInFamily at hok
    cases h2 : BaseExtensionClass._new policy (fams fid) na bases nsp with
    | error e => simp [h2] at hok
    | ok p =>
      obtain ⟨v0, reg2⟩ := p
      simp only [h2, Except.ok.injEq, Prod.mk.injEq] at hok
      rw [← hok.2]
      simp [hne]
  · exact ⟨_, _, _, _, rfl, rfl, rfl, rfl⟩

/-- Witness for C8 at a concrete registration into family zero, observed
from family one. -/
theorem families_are_independent_witness :
    createFamily (fun _ => ([] : Registry)) 0 0 = [] ∧
    (fun j => if j = 0
      then [("X", Variant.mk "A" [] [("name", "X")])] else ([] : Registry)) 1 =
      (fun _ => ([] : Registry)) 1 :=
  ⟨(families_are_independent (fun _ => []) 0 1
      (NameBasedBlackListExtensionPolicy []) "A" [] [("name", "X")]
      (Variant.mk "A" [] [("name", "X")])
      (fun j => if j = 0
        then [("X", Variant.mk "A" [] [("name", "X")])] else ([] : Registry))
      (by decide) rfl).1,
   (families_are_independent (fun _ => []) 0 1
      (NameBasedBlackListExtensionPolicy []) "A" [] [("name", "X")]
      (Variant.mk "A" [] [("name", "X")])
      (fun j => if j = 0
        then [("X", Variant.mk "A" [] [("name", "X")])] else ([] : Registry))
      (by decide) rfl).2.1⟩

/-- C9: findExtensions yields, for every directory entry whose name the
shell glob pattern matches, the entry name with its file extension
stripped; and over a directory holding a.ext, _b.ext and c.txt, the
pattern excluding names that start with an underscore yields exactly
the one base name a. -/
theorem findExtensions_yields_matching_basenames
    (entries : List String) (pattern : String) (e : String)
    (he : e ∈ entries) (hm : shellGlobMatch pattern e = true) :
    String.mk (beforeLastDot e.data) ∈ findExtensions entries pattern ∧
    findExtensions ["a.ext", "_b.ext", "c.txt"] "[!_]*.ext" = ["a"] := by
  constructor
  · unfold findExtensions
    apply List.mem_map_of_mem
    unfold shellGlobMatch at hm
    rw [Bool.and_eq_true] at hm
    obtain ⟨hdot, hfn⟩ := hm
    unfold glob1
    by_cases hp : strStartsWithDot pattern = true
    · rw [if_pos hp]
      exact List.mem_filter.mpr ⟨he, hfn⟩
    · rw [if_neg hp]
      refine List.mem_filter.mpr ⟨List.mem_filter.mpr ⟨he, ?_⟩, hfn⟩
      rw [Bool.not_eq_true] at hp
      rw [hp, Bool.false_or] at hdot
      exact hdot
  · decide

/-- Witness for C9 at the concrete directory of the specification. -/
theorem findExtensions_yields_matching_basenames_witness :
    ("a.ext" ∈ ["a.ext", "_b.ext", "c.txt"] ∧
      shellGlobMatch "[!_]*.ext" "a.ext" = true) ∧
    (String.mk (beforeLastDot "a.ext".data) ∈
        findExtensions ["a.ext", "_b.ext", "c.txt"] "[!_]*.ext" ∧
      findExtensions ["a.ext", "_b.ext", "c.txt"] "[!_]*.ext" = ["a"]) :=
  ⟨⟨by decide, by decide⟩,
    findExtensions_yields_matching_basenames ["a.ext", "_b.ext", "c.txt"]
      "[!_]*.ext" "a.ext" (by decide) (by decide)⟩

/-- C10: each leaf policy subscripts the namespace on the key name without
a guard, so calling it on a namespace lacking that key raises KeyError;
inside the registration protocol that branch is unreachable, because the
protocol checks for the name entry before consulting the policy, so the
protocol never surfaces that KeyError for any namespace whatsoever. -/
theorem leaf_policies_read_name_unguarded
    (whiteList blackList : List String) (reMatch : String → String → Bool)
    (pattern : String) (na : String) (bases : List String) (nsp : AttrMap)
    (reg : Registry)
    (h : attrLookup nsp "name" = none) :
    NameBasedWhiteListExtensionPolicy whiteList na bases nsp =
      Except.error (PyError.keyError "name") ∧
    NameBasedBlackListExtensionPolicy blackList na bases nsp =
      Except.error (PyError.keyError "name") ∧
    NameBasedREExtensionPolicy reMatch pattern na bases nsp =
      Except.error (PyError.keyError "name") ∧
    (∀ nsp2 : AttrMap,
      BaseExtensionClass._new (NameBasedWhiteListExtensionPolicy whiteList) reg
        na bases nsp2 ≠ Except.error (PyError.keyError "name") ∧
      BaseExtensionClass._new (NameBasedBlackListExtensionPolicy blackList) reg
        na bases nsp2 ≠ Except.error (PyError.keyError "name") ∧
      BaseExtensionClass._new (NameBasedREExtensionPolicy reMatch pattern) reg
        na bases nsp2 ≠ Except.error (PyError.keyError "name")) := by
  refine ⟨?_, ?_, ?_, ?_⟩
  · simp [NameBasedWhiteListExtensionPolicy, h]
  · simp [NameBasedBlackListExtensionPolicy, h]
  · simp [NameBasedREExtensionPolicy, h]
  · intro nsp2
    refine ⟨?_, ?_, ?_⟩
    · exact new_never_keyError _
        (fun na2 b2 n2 nm hnm => ⟨whiteList.contains nm,
          by simp [NameBasedWhiteListExtensionPolicy, hnm]⟩)
        reg na bases nsp2
    · exact new_never_keyError _
        (fun na2 b2 n2 nm hnm => ⟨!(blackList.contains nm),
          by simp [NameBasedBlackListExtensionPolicy, hnm]⟩)
        reg na bases nsp2
    · exact new_never_keyError _
        (fun na2 b2 n2 nm hnm => ⟨if reMatch pattern nm then true else false,
          by simp [NameBasedREExtensionPolicy, hnm]⟩)
        reg na bases nsp2

/-- Witness for C10 at the empty namespace. -/
theorem leaf_policies_read_name_unguarded_witness :
    attrLookup [] "name" = none ∧
    NameBasedWhiteListExtensionPolicy [] "A" [] [] =
      Except.error (PyError.keyError "name") :=
  ⟨rfl, (leaf_policies_read_name_unguarded [] [] (fun _ _ => false) ""
    "A" [] [] [] rfl).1⟩
